import Mathlib

/-!
Shallow embedding of the obstacle-announcement pipeline of the
useObjectDetection hook (the pinhole-camera version of the module, which the
design document adopts as authoritative; the near-duplicate size-ratio
version of the hook is documented as superseded).

Numbers are modelled by exact rationals together with the IEEE-754 special
values that the translated code can actually produce: positive or negative
infinity from dividing a nonzero value by zero, and NaN from zero divided by
zero.  Floating-point rounding of ordinary arithmetic is not modelled; no
verified property depends on it.
-/

namespace ARN

unseal Rat.mul Rat.inv Rat.add Rat.sub

/-- A JavaScript number as it occurs in this pipeline: an exact rational or
one of the special values NaN, Infinity, -Infinity. -/
inductive JSNum where
  | nan : JSNum
  | inf : JSNum
  | ninf : JSNum
  | fin : ℚ → JSNum
deriving DecidableEq, Repr

/-- JavaScript division of two rationals: division by zero yields a special
value instead of raising an exception. -/
def jsDivQ (a b : ℚ) : JSNum :=
  if b = 0 then (if a = 0 then JSNum.nan else if 0 < a then JSNum.inf else JSNum.ninf)
  else JSNum.fin (a / b)

/-- Rounding to one decimal place: Number.parseFloat(x.toFixed(1)) on a
finite value (round half away from zero, as toFixed does on exact decimal
inputs). -/
def roundTo1 (q : ℚ) : ℚ :=
  if 0 ≤ q then ((⌊10 * q + 1/2⌋ : ℤ) : ℚ) / 10
  else -(((⌊10 * (-q) + 1/2⌋ : ℤ) : ℚ) / 10)

/-- Number.parseFloat(x.toFixed(1)) on a JavaScript number: toFixed renders
NaN and the infinities as words that parseFloat maps back to themselves. -/
def JSNum.toFixed1 : JSNum → JSNum
  | JSNum.fin q => JSNum.fin (roundTo1 q)
  | x => x

/-- Math.min on JavaScript numbers: NaN absorbs, otherwise the usual order
with the infinities at the ends. -/
def JSNum.jsMin : JSNum → JSNum → JSNum
  | JSNum.nan, _ => JSNum.nan
  | _, JSNum.nan => JSNum.nan
  | JSNum.inf, y => y
  | x, JSNum.inf => x
  | JSNum.ninf, _ => JSNum.ninf
  | _, JSNum.ninf => JSNum.ninf
  | JSNum.fin a, JSNum.fin b => JSNum.fin (min a b)

/-- Math.max on JavaScript numbers. -/
def JSNum.jsMax : JSNum → JSNum → JSNum
  | JSNum.nan, _ => JSNum.nan
  | _, JSNum.nan => JSNum.nan
  | JSNum.ninf, y => y
  | x, JSNum.ninf => x
  | JSNum.inf, _ => JSNum.inf
  | _, JSNum.inf => JSNum.inf
  | JSNum.fin a, JSNum.fin b => JSNum.fin (max a b)

/-- The strict comparison x < y of JavaScript: any comparison with NaN is
false. -/
def JSNum.jsLt : JSNum → JSNum → Bool
  | JSNum.nan, _ => false
  | _, JSNum.nan => false
  | JSNum.inf, _ => false
  | JSNum.ninf, JSNum.ninf => false
  | JSNum.ninf, _ => true
  | JSNum.fin _, JSNum.inf => true
  | JSNum.fin _, JSNum.ninf => false
  | JSNum.fin a, JSNum.fin b => decide (a < b)

/-- Decimal rendering of the rationals this pipeline produces (integers and
nonnegative multiples of one tenth), matching the template-string conversion
of those numbers. -/
def qToString (q : ℚ) : String :=
  if q.den = 1 then toString q.num
  else if q.den = 10 ∧ 0 ≤ q then toString (q.num / 10) ++ "." ++ toString (q.num % 10)
  else toString q.num ++ "/" ++ toString q.den

/-- String conversion of a JavaScript number as interpolated into an
announcement template. -/
def JSNum.render : JSNum → String
  | JSNum.nan => "NaN"
  | JSNum.inf => "Infinity"
  | JSNum.ninf => "-Infinity"
  | JSNum.fin q => qToString q

/-- An axis-aligned bounding box in pixel coordinates, the bbox array
[x, y, width, height] of a prediction. -/
structure BBox where
  x : ℚ
  y : ℚ
  width : ℚ
  height : ℚ
deriving DecidableEq, Repr

/-- One prediction of the external classifier.  The field class_label embeds
the field named class in the source, which is a reserved word here. -/
structure Detection where
  class_label : String
  score : ℚ
  bbox : BBox
deriving DecidableEq, Repr

/-- The record literal of expected real-world heights in meters, in source
order. -/
def expectedHeightsTable : List (String × ℚ) :=
  [("person", 17/10), ("car", 3/2), ("truck", 5/2), ("motorcycle", 6/5),
   ("bus", 3), ("dog", 3/5), ("cat", 3/10), ("bicycle", 1), ("chair", 4/5),
   ("door", 2), ("tree", 5), ("pole", 3/10), ("traffic_cone", 7/10),
   ("bench", 1/2), ("wall", 2)]

/-- The lookup expectedHeights[objectClass] || 1.0: a missing key falls back
to 1.0.  No stored value is falsy, so the JavaScript or-default fires
exactly for missing keys. -/
def expectedHeights (objectClass : String) : ℚ :=
  match expectedHeightsTable.lookup objectClass with
  | some h => h
  | none => 1

/-- The value of Math.tan(verticalFOV / 2) for the fixed 60 degree vertical
field of view, as the double-precision evaluation produces it.  The embedding
fixes this transcendental constant to a rational; no verified property
depends on its exact value beyond positivity. -/
def tanHalfVFOV : ℚ := 5773502691896257 / 10000000000000000

/-- estimateDistance: pinhole-camera distance from a bounding box, rounded
to one decimal and clamped by Math.max(0.3, Math.min(20, ...)). -/
def estimateDistance (bbox : BBox) (videoWidth : ℚ) (objectClass : String) : JSNum :=
  let expectedHeight := expectedHeights objectClass
  let focalLength := videoWidth / (2 * tanHalfVFOV)
  let pixelHeight := bbox.height
  let distance := jsDivQ (expectedHeight * focalLength) pixelHeight
  (JSNum.fin (3/10)).jsMax ((JSNum.fin 20).jsMin distance.toFixed1)

/-- getPosition: horizontal center of the box as a fraction of the frame
width, bucketed into left, center, right. -/
def getPosition (bbox : BBox) (videoWidth : ℚ) : String :=
  let centerX := bbox.x + bbox.width / 2
  let relativePosition := jsDivQ centerX videoWidth
  if relativePosition.jsLt (JSNum.fin (33/100)) then "left"
  else if (JSNum.fin (67/100)).jsLt relativePosition then "right"
  else "center"

/-- The vehicle tier filter list. -/
def vehicleClasses : List String := ["car", "truck", "motorcycle", "bus"]

/-- The obstacle tier filter list (furniture, hazards, animals, structural
objects), in source order. -/
def obstacleClasses : List String :=
  ["chair", "couch", "bed", "dining table", "door", "tv", "laptop", "bottle",
   "cup", "backpack", "handbag", "suitcase",
   "umbrella", "sports ball", "baseball bat", "tennis racket", "potted plant",
   "plant", "traffic cone", "bench", "railing", "fence", "pole", "skateboard",
   "bicycle", "motorcycle helmet",
   "dog", "cat", "bird", "teddy bear",
   "kite", "frisbee", "stairs", "step", "ramp", "escalator", "elevator",
   "pillar", "column", "barrier", "gate", "sign", "lamp", "street light",
   "hydrant", "mailbox", "trash can", "dumpster", "wall", "building",
   "bridge", "tunnel", "curb", "manhole", "grate", "bollard", "post", "tree",
   "bush", "rock", "log", "branch", "stick"]

/-- The body of the reduce over the person tier: both candidates are priced
with the fixed class label person (currentDist < closestDist keeps current,
otherwise the accumulator survives, so ties keep the earlier element). -/
def closestPersonStep (videoWidth : ℚ) (closest current : Detection) : Detection :=
  if (estimateDistance current.bbox videoWidth "person").jsLt
      (estimateDistance closest.bbox videoWidth "person") then current else closest

/-- The body of the reduce over the vehicle and obstacle tiers: in the
source, both the accumulator and the current element are priced with the
class label of the CURRENT element (current.class appears in both
estimateDistance calls of the comparison). -/
def closestByCurrentClassStep (videoWidth : ℚ) (closest current : Detection) : Detection :=
  if (estimateDistance current.bbox videoWidth current.class_label).jsLt
      (estimateDistance closest.bbox videoWidth current.class_label) then current
  else closest

/-- The three object priority tiers of detectObjects. -/
inductive Tier where
  | person : Tier
  | vehicle : Tier
  | obstacle : Tier
deriving DecidableEq, Repr

/-- The tier-resolution and nearest-selection logic of detectObjects: the
first nonempty filter among person, vehicle, obstacle wins, and a reduce
without an initial value (first element as seed) picks the reported
detection. -/
def selectSubject (predictions : List Detection) (videoWidth : ℚ) :
    Option (Tier × Detection) :=
  match predictions.filter (fun p => p.class_label == "person") with
  | p :: ps => some (Tier.person, ps.foldl (closestPersonStep videoWidth) p)
  | [] =>
    match predictions.filter (fun p => vehicleClasses.contains p.class_label) with
    | v :: vs => some (Tier.vehicle, vs.foldl (closestByCurrentClassStep videoWidth) v)
    | [] =>
      match predictions.filter (fun p => obstacleClasses.contains p.class_label) with
      | o :: os => some (Tier.obstacle, os.foldl (closestByCurrentClassStep videoWidth) o)
      | [] => none

/-- The announcement-relevant mutable state of the hook: the published
detections array, lastDetectionRef and lastAnnouncementTimeRef (milliseconds).
The unused lastAnnouncementRef is omitted. -/
structure AnnState where
  detections : List String
  lastDetection : String
  lastAnnouncementTime : ℤ
deriving DecidableEq, Repr

/-- The state at pipeline start: empty detections, empty last text, time 0. -/
def initialAnnState : AnnState := ⟨[], "", 0⟩

/-- The emit-or-suppress block repeated verbatim after each of the four
object and wall branches of detectObjects.  Returns the next state together
with the published announcement, if any. -/
def announceBlock (st : AnnState) (announcement : String) (now : ℤ) :
    AnnState × Option String :=
  if announcement ≠ st.lastDetection ∨ now - st.lastAnnouncementTime > 4000 then
    (⟨[announcement], announcement, now⟩, some announcement)
  else (st, none)

/-- The clear-path block at the end of detectObjects: a slower heartbeat
guard outside, a changed-text guard inside. -/
def clearPathBlock (st : AnnState) (now : ℤ) : AnnState × Option String :=
  if now - st.lastAnnouncementTime > 6000 then
    if "Clear path ahead" ≠ st.lastDetection then
      (⟨["Clear path ahead"], "Clear path ahead", now⟩, some "Clear path ahead")
    else (st, none)
  else (st, none)

/-- Everything one invocation of detectObjects produces.  classifierCalled
records whether model.detect was reached; errorMsg is the argument of the
setError call in the catch handler (stored by the hook in separate state
that the pipeline itself never reads). -/
structure TickResult where
  state : AnnState
  classifierCalled : Bool
  published : Option String
  errorMsg : Option String
deriving DecidableEq, Repr

/-- A read-only snapshot of the camera frame: dimensions and the raw RGBA
byte buffer, indexed byte by byte as the ImageData.data array is (index
4 * (y * width + x) holds the red channel of pixel (x, y)). -/
structure Frame where
  width : ℕ
  height : ℕ
  data : ℕ → ℚ

/-- The byte index idx = (y * width + x) * 4 the scans compute from their
(possibly fractional) loop coordinates. -/
def scanIdx (f : Frame) (x y : ℚ) : ℚ :=
  (y * (f.width : ℚ) + x) * 4

/-- One byte of the RGBA buffer at a rational index.  The scans below only
consume these reads after the alignment guard of analyzeRegion has ensured
every index they produce is an integer, so the numerator IS the index. -/
def byteAt (f : Frame) (idx : ℚ) : ℚ := f.data idx.num.toNat

/-- Luma at loop coordinates (x, y): mean of the three bytes at
(y * width + x) * 4.  When the loop coordinates are fractional the byte
index can still be an integer (the factor 4 cancels halves, e.g. a 641
pixel wide frame has x starting at 240.5 with integer indices): the source
then reads real, possibly channel-misaligned bytes, and so does this
embedding. -/
def brightnessAt (f : Frame) (x y : ℚ) : ℚ :=
  let idx := scanIdx f x y
  (byteAt f idx + byteAt f (idx + 1) + byteAt f (idx + 2)) / 3

/-- The analysis bounds of the center region: a square of side
min(width, height) / 3 centered on the frame, clipped to the frame. -/
structure Region where
  xLo : ℚ
  xHi : ℚ
  yLo : ℚ
  yHi : ℚ
deriving DecidableEq, Repr

/-- The center analysis region of detectWall. -/
def region (f : Frame) : Region :=
  let w : ℚ := f.width
  let h : ℚ := f.height
  let centerX := w / 2
  let centerY := h / 2
  let regionSize := min w h / 3
  ⟨max 0 (centerX - regionSize / 2), min w (centerX + regionSize / 2),
   max 0 (centerY - regionSize / 2), min h (centerY + regionSize / 2)⟩

/-- The values taken by the loop variable of
for (v = lo; v < hi; v++): lo, lo + 1, ... while below hi, for any
rational lo. -/
def jsLoopVals (lo hi : ℚ) : List ℚ :=
  (List.range (⌈hi - lo⌉).toNat).map (fun k => lo + (k : ℚ))

/-- The (x, y) loop coordinates the two detectWall scans visit, row by
row. -/
def regionPts (f : Frame) : List (ℚ × ℚ) :=
  let r := region f
  (jsLoopVals r.yLo r.yHi).flatMap (fun y =>
    (jsLoopVals r.xLo r.xHi).map (fun x => (x, y)))

/-- The gradient magnitude used by the edge scan at an interior pixel:
|luma(left) - luma(right)| + |luma(up) - luma(down)|. -/
def edgeMagnitude (f : Frame) (x y : ℚ) : ℚ :=
  |brightnessAt f (x - 1) y - brightnessAt f (x + 1) y| +
    |brightnessAt f x (y - 1) - brightnessAt f x (y + 1)|

/-- The interior-pixel guard of the edge scan:
x > 0 && x < width - 1 && y > 0 && y < height - 1. -/
def interiorPt (f : Frame) (p : ℚ × ℚ) : Bool :=
  decide (0 < p.1) && decide (p.1 < (f.width : ℚ) - 1) &&
    decide (0 < p.2) && decide (p.2 < (f.height : ℚ) - 1)

/-- The statistics the first detectWall scan accumulates over the center
region. -/
structure RegionStats where
  pixelCount : ℕ
  avgBrightness : ℚ
  edgeDensity : ℚ
deriving DecidableEq, Repr

/-- The first scan of detectWall: mean brightness and edge density of the
center region.  Returns none on the source's early exits (zero dimensions,
zero pixel count) and also when the scan's byte index is fractional.  Every
index of both scans differs from (yLo * width + xLo) * 4 by an integer
(the loop steps are 1, the channel offsets 1 and 2, the neighbor offsets 4
and 4 * width), so either all reads hit real bytes, or all indices are
fractional, data[idx] is undefined, every brightness is NaN, the wall test
avgBrightness > 50 is false and the source returns null: the embedding
diverts that second case here.  Fractional loop coordinates with integer
byte indices (half-pixel bounds, where the factor 4 cancels the half) are
NOT diverted: the source computes real statistics there and so does this
function. -/
def analyzeRegion (f : Frame) : Option RegionStats :=
  if f.width = 0 ∨ f.height = 0 then none
  else if (scanIdx f (region f).xLo (region f).yLo).den = 1 then
    let pts := regionPts f
    if pts.length = 0 then none
    else
      let totalBrightness := (pts.map (fun p => brightnessAt f p.1 p.2)).sum
      let edgeCount := pts.countP (fun p =>
        interiorPt f p && decide (edgeMagnitude f p.1 p.2 > 30))
      some ⟨pts.length, totalBrightness / (pts.length : ℚ),
            (edgeCount : ℚ) / (pts.length : ℚ)⟩
  else none

/-- One rung of an else-if threshold chain: if b exceeds the rung threshold
take its value, otherwise continue down the chain to the final else. -/
def stepTable (b : ℚ) : List (ℚ × ℚ) → ℚ → ℚ
  | [], dflt => dflt
  | (t, v) :: rest, dflt => if b > t then v else stepTable b rest dflt

/-- The thresholds and distances of the wall brightness chain, in source
order (avgBrightness > 220 gives 0.5 and so on). -/
def wallDistTable : List (ℚ × ℚ) :=
  [(220, 1/2), (210, 7/10), (200, 1), (190, 13/10), (180, 8/5), (170, 2),
   (160, 5/2), (150, 3), (140, 7/2), (130, 4), (120, 9/2), (110, 5),
   (100, 11/2)]

/-- The brightness step chain of detectWall, the else-if ladder embedded as
a fold over its rungs in source order with final else 6.0.  The initial
value 10 of the source variable is overwritten on every path. -/
def wallDistOfBrightness (b : ℚ) : ℚ := stepTable b wallDistTable 6

/-- Membership of a region pixel in the left third of the frame
(x < width / 3). -/
def inLeftThird (f : Frame) (p : ℚ × ℚ) : Bool :=
  decide (p.1 < (f.width : ℚ) / 3)

/-- Membership in the center third: not left, and x < width * 2 / 3. -/
def inCenterThird (f : Frame) (p : ℚ × ℚ) : Bool :=
  !(inLeftThird f p) && decide (p.1 < (f.width : ℚ) * 2 / 3)

/-- Membership in the right third: the residual bucket. -/
def inRightThird (f : Frame) (p : ℚ × ℚ) : Bool :=
  !(inLeftThird f p) && !(decide (p.1 < (f.width : ℚ) * 2 / 3))

/-- Mean brightness of one bucket of the second detectWall scan, with the
source's count-or-one divisor (sum /= count || 1). -/
def bucketAvg (f : Frame) (sel : ℚ × ℚ → Bool) : ℚ :=
  let sl := (regionPts f).filter sel
  ((sl.map (fun p => brightnessAt f p.1 p.2)).sum) /
    (if sl.length = 0 then 1 else (sl.length : ℚ))

/-- The position resolution of detectWall from the three bucket means:
default center, left or right only on a strict double win. -/
def wallPosition (lb cb rb : ℚ) : String :=
  if lb > cb ∧ lb > rb then "left"
  else if rb > cb ∧ rb > lb then "right"
  else "center"

/-- The result object of a successful detectWall call. -/
structure WallResult where
  hasWall : Bool
  distance : ℚ
  position : String
deriving DecidableEq, Repr

/-- detectWall: report a wall iff the center region has edge density below
0.1 and mean brightness above 50; the distance comes from the brightness
step table (passed through parseFloat(x.toFixed(1)) as in the source) and
the position from the brightness-distribution buckets. -/
def detectWall (f : Frame) : Option WallResult :=
  match analyzeRegion f with
  | none => none
  | some s =>
    if s.edgeDensity < 1/10 ∧ s.avgBrightness > 50 then
      some ⟨true, roundTo1 (wallDistOfBrightness s.avgBrightness),
            wallPosition (bucketAvg f (inLeftThird f)) (bucketAvg f (inCenterThird f))
              (bucketAvg f (inRightThird f))⟩
    else none

/-- One invocation of detectObjects.  ready embeds the guard
(!video || !model || video.readyState !== 4); classifierResult is the
outcome of the awaited model.detect call, none meaning it threw or
rejected; frame is the pixel snapshot detectWall would analyze, none
meaning the canvas context was unavailable or the draw into it failed. -/
def detectObjects (isSpeaking ready : Bool) (videoWidth : ℚ)
    (classifierResult : Option (List Detection)) (frame : Option Frame)
    (now : ℤ) (st : AnnState) : TickResult :=
  if isSpeaking then ⟨st, false, none, none⟩
  else if !ready then ⟨st, false, none, none⟩
  else
    match classifierResult with
    | none => ⟨st, true, none, some "Detection error occurred"⟩
    | some predictions =>
      match selectSubject predictions videoWidth with
      | some (Tier.person, d) =>
        let distance := estimateDistance d.bbox videoWidth "person"
        let position := getPosition d.bbox videoWidth
        let announcement :=
          if distance.jsLt (JSNum.fin 2) then
            "Very close person " ++ position ++ " about " ++ distance.render ++ " meters"
          else
            "Person " ++ position ++ " about " ++ distance.render ++ " meters away"
        let r := announceBlock st announcement now
        ⟨r.1, true, r.2, none⟩
      | some (Tier.vehicle, d) =>
        let distance := estimateDistance d.bbox videoWidth d.class_label
        let position := getPosition d.bbox videoWidth
        let announcement :=
          d.class_label ++ " " ++ position ++ " about " ++ distance.render ++ " meters away"
        let r := announceBlock st announcement now
        ⟨r.1, true, r.2, none⟩
      | some (Tier.obstacle, d) =>
        let distance := estimateDistance d.bbox videoWidth d.class_label
        let position := getPosition d.bbox videoWidth
        let announcement :=
          d.class_label ++ " " ++ position ++ " about " ++ distance.render ++ " meters away"
        let r := announceBlock st announcement now
        ⟨r.1, true, r.2, none⟩
      | none =>
        match frame.bind detectWall with
        | some wr =>
          if wr.hasWall then
            let announcement :=
              "Wall " ++ wr.position ++ " about " ++ qToString wr.distance ++ " meters ahead"
            let r := announceBlock st announcement now
            ⟨r.1, true, r.2, none⟩
          else
            let r := clearPathBlock st now
            ⟨r.1, true, r.2, none⟩
        | none =>
          let r := clearPathBlock st now
          ⟨r.1, true, r.2, none⟩

/-- The inputs one timer tick feeds to detectObjects. -/
structure TickInput where
  isSpeaking : Bool
  ready : Bool
  videoWidth : ℚ
  classifierResult : Option (List Detection)
  frame : Option Frame
  now : ℤ

/-- The state after one tick. -/
def tickState (i : TickInput) (st : AnnState) : AnnState :=
  (detectObjects i.isSpeaking i.ready i.videoWidth i.classifierResult i.frame i.now st).state

/-- The periodic tick loop as a fold: each tick runs to completion before
the next fires. -/
def runTicks (inputs : List TickInput) (st : AnnState) : AnnState :=
  match inputs with
  | [] => st
  | i :: rest => runTicks rest (tickState i st)

/-- A run of obstruction-free ticks (classifier returns an empty list, no
wall surface is available), recording each emission with its time. -/
def runEmissions (times : List ℤ) (st : AnnState) : List (ℤ × String) :=
  match times with
  | [] => []
  | t :: ts =>
    let r := detectObjects false true 640 (some []) none t st
    match r.published with
    | some a => (t, a) :: runEmissions ts r.state
    | none => runEmissions ts r.state

/-- Offer times 0, 500, ..., 7000 milliseconds. -/
def clearScheduleTimes : List ℤ := (List.range 15).map (fun k => 500 * (k : ℤ))

/-- A state from which the clear-path candidate is certainly emitted at
time 0: the last emission is old and its text differs. -/
def clearStart : AnnState := ⟨[], "", -10000⟩

/-- The emissions of the clear-path schedule of the design document:
offers every 500 ms for 7000 ms against an otherwise clear scene. -/
def clearRun : List (ℤ × String) := runEmissions clearScheduleTimes clearStart

/-- stopDetection: cancels the interval, empties the published detections
and clears lastDetectionRef.  lastAnnouncementTimeRef is not touched. -/
def stopDetection (st : AnnState) : AnnState :=
  ⟨[], "", st.lastAnnouncementTime⟩

/-- The fourteen values the brightness step table can produce. -/
def wallBands : List ℚ :=
  [1/2, 7/10, 1, 13/10, 8/5, 2, 5/2, 3, 7/2, 4, 9/2, 5, 11/2, 6]

/-- A car prediction whose own pinhole estimate is 13.0 m. -/
def carD : Detection := ⟨"car", 9/10, ⟨0, 200, 50, 100⟩⟩

/-- A bus prediction whose own pinhole estimate is 17.3 m. -/
def busD : Detection := ⟨"bus", 9/10, ⟨200, 0, 300, 150⟩⟩

/-- A person prediction at distance estimate 1.0 m (frame width 640). -/
def personA : Detection := ⟨"person", 9/10, ⟨0, 0, 50, 942⟩⟩

/-- A person prediction at distance estimate 3.0 m (frame width 640). -/
def personB : Detection := ⟨"person", 9/10, ⟨0, 0, 50, 314⟩⟩

/-- A close person near the frame center (frame width 640). -/
def personNear : Detection := ⟨"person", 9/10, ⟨280, 100, 80, 400⟩⟩

/-- A far car at the left of the frame (frame width 640). -/
def carFar : Detection := ⟨"car", 4/5, ⟨0, 200, 100, 60⟩⟩

/-- A 6 by 6 frame of uniform brightness 150 (integer loop bounds). -/
def frame6 : Frame := ⟨6, 6, fun _ => 150⟩

/-- A 6 by 7 frame of uniform brightness 150: its vertical loop bound is
the half-integer 2.5, yet the byte indices are integers (the factor 4
cancels the half), so the scan reads real bytes and reports a wall. -/
def frame7 : Frame := ⟨6, 7, fun _ => 150⟩

/-- The center-region statistics of frame6 and of frame7. -/
def stats6 : RegionStats := ⟨4, 150, 0⟩

/-! Order lemmas for the JavaScript strict comparison. -/

lemma jsLt_to_nan (a : JSNum) : a.jsLt JSNum.nan = false := by
  cases a <;> rfl

lemma jsLt_irrefl (a : JSNum) : a.jsLt a = false := by
  cases a <;> simp [JSNum.jsLt]

lemma jsLt_trans {a b c : JSNum} (h1 : a.jsLt b = true) (h2 : b.jsLt c = true) :
    a.jsLt c = true := by
  cases a <;> cases b <;> cases c <;> simp_all [JSNum.jsLt] <;> linarith

lemma jsLt_false_trans {x a r : JSNum} (hx : x ≠ JSNum.nan) (ha : a ≠ JSNum.nan)
    (h1 : x.jsLt a = false) (h2 : a.jsLt r = false) : x.jsLt r = false := by
  cases x <;> cases a <;> cases r <;> simp_all [JSNum.jsLt] <;> linarith

/-! Behaviour of the reduce over the person tier. -/

lemma closestPersonStep_choice (vw : ℚ) (a b : Detection) :
    closestPersonStep vw a b = a ∨ closestPersonStep vw a b = b := by
  unfold closestPersonStep
  split
  · exact Or.inr rfl
  · exact Or.inl rfl

lemma foldl_choice_mem {f : Detection → Detection → Detection}
    (hf : ∀ a b, f a b = a ∨ f a b = b) :
    ∀ (xs : List Detection) (a : Detection), xs.foldl f a ∈ a :: xs := by
  intro xs
  induction xs with
  | nil => intro a; simp
  | cons x xs ih =>
    intro a
    rw [List.foldl_cons]
    rcases hf a x with h1 | h1
    · rw [h1]
      rcases List.mem_cons.mp (ih a) with h2 | h2 <;> simp [h2]
    · rw [h1]
      rcases List.mem_cons.mp (ih x) with h2 | h2 <;> simp [h2]

lemma foldl_person_nan (vw : ℚ) :
    ∀ (xs : List Detection) (a : Detection),
      estimateDistance a.bbox vw "person" = JSNum.nan →
      xs.foldl (closestPersonStep vw) a = a := by
  intro xs
  induction xs with
  | nil => intro a _; rfl
  | cons x xs ih =>
    intro a ha
    rw [List.foldl_cons]
    have hstep : closestPersonStep vw a x = a := by
      unfold closestPersonStep
      rw [ha, jsLt_to_nan]
      simp
    rw [hstep]
    exact ih a ha

lemma foldl_person_min (vw : ℚ) :
    ∀ (xs : List Detection) (a d : Detection), d ∈ a :: xs →
      (estimateDistance d.bbox vw "person").jsLt
        (estimateDistance (xs.foldl (closestPersonStep vw) a).bbox vw "person") = false := by
  intro xs
  induction xs with
  | nil =>
    intro a d hd
    simp only [List.mem_singleton] at hd
    subst hd
    simp only [List.foldl_nil]
    exact jsLt_irrefl _
  | cons x xs ih =>
    intro a d hd
    rw [List.foldl_cons]
    by_cases hrepl : (estimateDistance x.bbox vw "person").jsLt
        (estimateDistance a.bbox vw "person") = true
    · have hstep : closestPersonStep vw a x = x := by
        unfold closestPersonStep
        rw [hrepl]
        simp
      rw [hstep]
      rcases List.mem_cons.mp hd with hda | hd2
      · rw [hda]
        cases hA : (estimateDistance a.bbox vw "person").jsLt
            (estimateDistance ((xs.foldl (closestPersonStep vw) x)).bbox vw "person") with
        | false => rfl
        | true =>
          have hxr := jsLt_trans hrepl hA
          have hx := ih x x (List.mem_cons_self x xs)
          rw [hx] at hxr
          exact hxr.symm
      · exact ih x d hd2
    · have hrepl' : (estimateDistance x.bbox vw "person").jsLt
          (estimateDistance a.bbox vw "person") = false := by
        simpa using hrepl
      have hstep : closestPersonStep vw a x = a := by
        unfold closestPersonStep
        rw [hrepl']
        simp
      rw [hstep]
      rcases List.mem_cons.mp hd with hda | hd2
      · rw [hda]
        exact ih a a (List.mem_cons_self a xs)
      · rcases List.mem_cons.mp hd2 with hdx | hd3
      -- d is the rejected current element x
        · rw [hdx]
          by_cases hxnan : estimateDistance x.bbox vw "person" = JSNum.nan
          · rw [hxnan]
            cases estimateDistance ((xs.foldl (closestPersonStep vw) a)).bbox vw "person" <;> rfl
          · by_cases hanan : estimateDistance a.bbox vw "person" = JSNum.nan
            · rw [foldl_person_nan vw xs a hanan, hanan]
              exact jsLt_to_nan _
            · exact jsLt_false_trans hxnan hanan hrepl'
                (ih a a (List.mem_cons_self a xs))
        · exact ih a d (List.mem_cons_of_mem a hd3)

lemma selectSubject_person_spec (vw : ℚ) (preds : List Detection) (d0 : Detection)
    (h0 : d0 ∈ preds) (hc : d0.class_label = "person") :
    ∃ d, selectSubject preds vw = some (Tier.person, d)
      ∧ d ∈ preds ∧ d.class_label = "person"
      ∧ ∀ d' ∈ preds, d'.class_label = "person" →
          (estimateDistance d'.bbox vw "person").jsLt
            (estimateDistance d.bbox vw "person") = false := by
  have hmem : d0 ∈ preds.filter (fun p => p.class_label == "person") := by
    simp [List.mem_filter, h0, hc]
  cases hfil : preds.filter (fun p => p.class_label == "person") with
  | nil => rw [hfil] at hmem; simp at hmem
  | cons p ps =>
    have hres := foldl_choice_mem (closestPersonStep_choice vw) ps p
    rw [← hfil] at hres
    have hres2 := List.mem_filter.mp hres
    refine ⟨ps.foldl (closestPersonStep vw) p, ?_, hres2.1, by simpa using hres2.2, ?_⟩
    · simp only [selectSubject, hfil]
    · intro d' hd' hcd'
      have hmem' : d' ∈ preds.filter (fun p => p.class_label == "person") := by
        simp [List.mem_filter, hd', hcd']
      rw [hfil] at hmem'
      exact foldl_person_min vw ps p d' hmem'

/-! Lemmas about the geometry and wall tables. -/

lemma lookup_pos_of_all :
    ∀ (l : List (String × ℚ)), (∀ p ∈ l, 0 < p.2) →
      ∀ (cls : String) (q : ℚ), l.lookup cls = some q → 0 < q := by
  intro l
  induction l with
  | nil => intro _ cls q h; simp [List.lookup] at h
  | cons p ps ih =>
    intro hall cls q h
    obtain ⟨k, v⟩ := p
    rw [List.lookup] at h
    cases hk : (cls == k) with
    | true =>
      rw [hk] at h
      injection h with hv
      rw [← hv]
      exact hall (k, v) (List.mem_cons_self _ _)
    | false =>
      rw [hk] at h
      exact ih (fun p hp => hall p (List.mem_cons_of_mem _ hp)) cls q h

lemma expectedHeightsTable_pos : ∀ p ∈ expectedHeightsTable, 0 < p.2 := by
  decide

lemma expectedHeights_pos (cls : String) : 0 < expectedHeights cls := by
  unfold expectedHeights
  cases h : expectedHeightsTable.lookup cls with
  | none => norm_num
  | some q => exact lookup_pos_of_all expectedHeightsTable expectedHeightsTable_pos cls q h

lemma stepTable_mem (b : ℚ) :
    ∀ (l : List (ℚ × ℚ)) (d : ℚ), stepTable b l d ∈ l.map Prod.snd ++ [d] := by
  intro l
  induction l with
  | nil => intro d; simp [stepTable]
  | cons p ps ih =>
    intro d
    obtain ⟨t, v⟩ := p
    simp only [stepTable]
    by_cases h : b > t
    · rw [if_pos h]
      simp
    · rw [if_neg h]
      have hm := ih d
      simp only [List.map_cons, List.cons_append, List.mem_cons]
      exact Or.inr hm

lemma stepTable_default (b : ℚ) :
    ∀ (l : List (ℚ × ℚ)) (d : ℚ), (∀ p ∈ l, ¬ b > p.1) → stepTable b l d = d := by
  intro l
  induction l with
  | nil => intro d _; rfl
  | cons p ps ih =>
    intro d hall
    obtain ⟨t, v⟩ := p
    simp only [stepTable]
    rw [if_neg (hall (t, v) (List.mem_cons_self _ _))]
    exact ih d (fun p hp => hall p (List.mem_cons_of_mem _ hp))

lemma stepTable_antitone :
    ∀ (l : List (ℚ × ℚ)) (d : ℚ),
      (l.map Prod.snd ++ [d]).Pairwise (· ≤ ·) →
      ∀ (b1 b2 : ℚ), b1 ≤ b2 → stepTable b2 l d ≤ stepTable b1 l d := by
  intro l
  induction l with
  | nil => intro d _ b1 b2 _; simp [stepTable]
  | cons p ps ih =>
    intro d hs b1 b2 h12
    obtain ⟨t, v⟩ := p
    have hs' : (v :: (ps.map Prod.snd ++ [d])).Pairwise (· ≤ ·) := by
      simpa using hs
    have hhead := (List.pairwise_cons.mp hs').1
    have htail := (List.pairwise_cons.mp hs').2
    simp only [stepTable]
    by_cases h2 : b2 > t
    · rw [if_pos h2]
      by_cases h1 : b1 > t
      · rw [if_pos h1]
      · rw [if_neg h1]
        exact hhead _ (stepTable_mem b1 ps d)
    · have h1 : ¬ b1 > t := fun hc => h2 (lt_of_lt_of_le hc h12)
      rw [if_neg h2, if_neg h1]
      exact ih d htail b1 b2 h12

lemma wallDist_mem (b : ℚ) : wallDistOfBrightness b ∈ wallBands := by
  have h := stepTable_mem b wallDistTable 6
  simpa [wallDistTable, wallBands] using h

lemma roundTo1_wallDist (b : ℚ) :
    roundTo1 (wallDistOfBrightness b) = wallDistOfBrightness b := by
  have hfix : ∀ q ∈ wallBands, roundTo1 q = q := by decide
  exact hfix _ (wallDist_mem b)

lemma wallBands_bounds : ∀ q ∈ wallBands, 1/2 ≤ q ∧ q ≤ 6 := by decide

lemma wallDist_antitone {b1 b2 : ℚ} (h : b1 ≤ b2) :
    wallDistOfBrightness b2 ≤ wallDistOfBrightness b1 := by
  refine stepTable_antitone wallDistTable 6 ?_ b1 b2 h
  decide

lemma wallDist_high (b : ℚ) (h : b > 220) : wallDistOfBrightness b = 1/2 := by
  unfold wallDistOfBrightness wallDistTable
  simp only [stepTable]
  rw [if_pos h]

lemma wallDist_low (b : ℚ) (h : b ≤ 100) : wallDistOfBrightness b = 6 := by
  unfold wallDistOfBrightness
  refine stepTable_default b wallDistTable 6 ?_
  have hthr : ∀ p ∈ wallDistTable, (100:ℚ) ≤ p.1 := by decide
  intro p hp
  have := hthr p hp
  intro hc
  linarith

lemma wallPosition_mem (lb cb rb : ℚ) :
    wallPosition lb cb rb = "left" ∨ wallPosition lb cb rb = "center" ∨
      wallPosition lb cb rb = "right" := by
  unfold wallPosition
  split_ifs <;> simp

/-! Claim theorems. -/

/-- C1: whenever the detection list of a tick contains at least one
detection with class label person, the prioritizer selects a person as the
announced subject, whatever the distances of vehicle or obstacle
detections in the same list are. -/
theorem person_tier_precedence (preds : List Detection) (vw : ℚ)
    (hp : ∃ d0 ∈ preds, d0.class_label = "person") :
    ∃ d, selectSubject preds vw = some (Tier.person, d) ∧
      d.class_label = "person" := by
  obtain ⟨d0, h0, hc⟩ := hp
  obtain ⟨d, hsel, _, hcls, _⟩ := selectSubject_person_spec vw preds d0 h0 hc
  exact ⟨d, hsel, hcls⟩

/-- C1 witness: the design-document example of a close centered person next
to a far car at the left selects the person. -/
theorem person_tier_precedence_witness :
    ∃ d, selectSubject [carFar, personNear] 640 = some (Tier.person, d) ∧
      d.class_label = "person" :=
  person_tier_precedence [carFar, personNear] 640 ⟨personNear, by decide, rfl⟩

/-- C2 counterexample: in the vehicle tier the reduce prices both candidates
with the class label of the current element, so with a car of estimate
13.0 m and a bus of estimate 17.3 m the bus is selected although the car
has the strictly smaller estimate. -/
theorem tier_nearest_cex :
    selectSubject [carD, busD] 1000 = some (Tier.vehicle, busD)
  ∧ (estimateDistance carD.bbox 1000 carD.class_label).jsLt
      (estimateDistance busD.bbox 1000 busD.class_label) = true := by
  constructor
  · decide
  · decide

/-- C2 amended: in the person tier (where all members share the class label)
the selected detection has no strictly closer rival, ties keep the first
element encountered, and of exactly two persons at estimates 1.0 m and
3.0 m the 1.0 m person is selected in either order; in the vehicle and
obstacle tiers the comparison uses the current element's class label for
both sides, so the selected detection need not minimize its own estimate. -/
theorem person_tier_nearest (vw : ℚ) :
    (∀ (preds : List Detection) (d0 : Detection), d0 ∈ preds →
       d0.class_label = "person" →
       ∃ d, selectSubject preds vw = some (Tier.person, d) ∧
         d.class_label = "person" ∧
         ∀ d' ∈ preds, d'.class_label = "person" →
           (estimateDistance d'.bbox vw "person").jsLt
             (estimateDistance d.bbox vw "person") = false)
  ∧ (∀ d1 d2 : Detection, d1.class_label = "person" →
       d2.class_label = "person" →
       estimateDistance d1.bbox vw "person" = estimateDistance d2.bbox vw "person" →
       selectSubject [d1, d2] vw = some (Tier.person, d1))
  ∧ (∀ d1 d2 : Detection, d1.class_label = "person" →
       d2.class_label = "person" →
       estimateDistance d1.bbox vw "person" = JSNum.fin 1 →
       estimateDistance d2.bbox vw "person" = JSNum.fin 3 →
       selectSubject [d1, d2] vw = some (Tier.person, d1) ∧
       selectSubject [d2, d1] vw = some (Tier.person, d1)) := by
  refine ⟨?_, ?_, ?_⟩
  · intro preds d0 h0 hc
    obtain ⟨d, hsel, _, hcls, hmin⟩ := selectSubject_person_spec vw preds d0 h0 hc
    exact ⟨d, hsel, hcls, hmin⟩
  · intro d1 d2 h1 h2 heq
    have hfil : [d1, d2].filter (fun p => p.class_label == "person") = [d1, d2] := by
      simp [List.filter, h1, h2]
    simp only [selectSubject, hfil, List.foldl_cons, List.foldl_nil]
    have hstep : closestPersonStep vw d1 d2 = d1 := by
      unfold closestPersonStep
      rw [← heq, jsLt_irrefl]
      simp
    rw [hstep]
  · intro d1 d2 h1 h2 he1 he2
    constructor
    · have hfil : [d1, d2].filter (fun p => p.class_label == "person") = [d1, d2] := by
        simp [List.filter, h1, h2]
      simp only [selectSubject, hfil, List.foldl_cons, List.foldl_nil]
      have hstep : closestPersonStep vw d1 d2 = d1 := by
        unfold closestPersonStep
        rw [he1, he2]
        simp [JSNum.jsLt]
      rw [hstep]
    · have hfil : [d2, d1].filter (fun p => p.class_label == "person") = [d2, d1] := by
        simp [List.filter, h1, h2]
      simp only [selectSubject, hfil, List.foldl_cons, List.foldl_nil]
      have hstep : closestPersonStep vw d2 d1 = d1 := by
        unfold closestPersonStep
        rw [he1, he2]
        simp [JSNum.jsLt]
      rw [hstep]

/-- C2 witness: two concrete persons whose pinhole estimates are exactly
1.0 m and 3.0 m; the 1.0 m person wins in either list order. -/
theorem person_tier_nearest_witness :
    selectSubject [personA, personB] 640 = some (Tier.person, personA) ∧
    selectSubject [personB, personA] 640 = some (Tier.person, personA) :=
  (person_tier_nearest 640).2.2 personA personB rfl rfl (by decide) (by decide)

/-- C3: an object or wall candidate offered to the announcement throttle is
published exactly when it differs from the stored last text or more than
4000 ms have passed since the last emission; emission rewrites the whole
state to the candidate and the current time, suppression changes nothing
and publishes nothing. -/
theorem announce_throttle_rule (st : AnnState) (c : String) (now : ℤ) :
    ((announceBlock st c now).2 = some c ↔
       (c ≠ st.lastDetection ∨ now - st.lastAnnouncementTime > 4000))
  ∧ (c ≠ st.lastDetection ∨ now - st.lastAnnouncementTime > 4000 →
       announceBlock st c now = (⟨[c], c, now⟩, some c))
  ∧ (¬(c ≠ st.lastDetection ∨ now - st.lastAnnouncementTime > 4000) →
       announceBlock st c now = (st, none)) := by
  unfold announceBlock
  by_cases h : c ≠ st.lastDetection ∨ now - st.lastAnnouncementTime > 4000
  · simp [h]
  · simp [h]

/-- C3 witness: a fresh person announcement against an empty state is
emitted and installs itself in the state. -/
theorem announce_throttle_rule_witness :
    announceBlock ⟨[], "", 0⟩ "Person center about 1.5 meters away" 1000 =
      (⟨["Person center about 1.5 meters away"],
        "Person center about 1.5 meters away", 1000⟩,
       some "Person center about 1.5 meters away") :=
  (announce_throttle_rule ⟨[], "", 0⟩ "Person center about 1.5 meters away" 1000).2.1
    (Or.inl (by decide))

/-- C4 counterexample: with the clear-path candidate emitted at t = 0 and
offered again every 500 ms through t = 7000 ms against a clear scene, the
run emits once, not twice: after the first emission the candidate equals
the stored last text, and the clear-path branch requires a CHANGED text in
addition to the 6000 ms gap, so no refresh emission ever happens. -/
theorem clear_heartbeat_cex : clearRun.length ≠ 2 := by decide

/-- C4 amended: in the schedule of the claim the clear-path candidate is
emitted exactly once, at t = 0; in general a clear-path offer against a
state already holding the text Clear path ahead is always suppressed with
the state unchanged, whatever the elapsed time. -/
theorem clear_heartbeat_amended :
    clearRun = [(0, "Clear path ahead")]
  ∧ (∀ (st : AnnState) (now : ℤ), st.lastDetection = "Clear path ahead" →
       clearPathBlock st now = (st, none)) := by
  constructor
  · decide
  · intro st now h
    unfold clearPathBlock
    rw [h]
    by_cases h6 : now - st.lastAnnouncementTime > 6000
    · rw [if_pos h6, if_neg (by simp)]
    · rw [if_neg h6]

/-- C4 witness: a concrete suppressed late offer of the clear-path text. -/
theorem clear_heartbeat_amended_witness :
    clearPathBlock ⟨[], "Clear path ahead", 0⟩ 99999 =
      (⟨[], "Clear path ahead", 0⟩, none) :=
  clear_heartbeat_amended.2 ⟨[], "Clear path ahead", 0⟩ 99999 rfl

/-- C5 counterexample: a zero-height bounding box at positive frame width
yields 20.0, the upper clamp of the positive infinity produced by the
division, not the safe default 1.0 (the catch handler is unreachable,
since JavaScript division by zero does not throw). -/
theorem estimate_zero_height_cex :
    estimateDistance ⟨0, 0, 10, 0⟩ 640 "person" = JSNum.fin 20 ∧
    estimateDistance ⟨0, 0, 10, 0⟩ 640 "person" ≠ JSNum.fin 1 := by
  constructor
  · decide
  · decide

/-- C5 amended: for positive frame width, a bounding box of positive height
gets a finite estimate inside the closed interval from 0.3 to 20.0, and a
bounding box of height zero gets 20.0 (infinity clamped from above), still
without any exception path being taken. -/
theorem estimateDistance_range (bbox : BBox) (vw : ℚ) (cls : String)
    (hw : 0 < vw) :
    (0 < bbox.height → ∃ q : ℚ, estimateDistance bbox vw cls = JSNum.fin q ∧
       3/10 ≤ q ∧ q ≤ 20)
  ∧ (bbox.height = 0 → estimateDistance bbox vw cls = JSNum.fin 20) := by
  have htan : (0:ℚ) < 2 * tanHalfVFOV := by norm_num [tanHalfVFOV]
  have hnum : 0 < expectedHeights cls * (vw / (2 * tanHalfVFOV)) :=
    mul_pos (expectedHeights_pos cls) (div_pos hw htan)
  constructor
  · intro hh
    refine ⟨max (3/10) (min 20 (roundTo1
        (expectedHeights cls * (vw / (2 * tanHalfVFOV)) / bbox.height))),
      ?_, le_max_left _ _, max_le (by norm_num) (min_le_left _ _)⟩
    simp only [estimateDistance, jsDivQ]
    rw [if_neg (ne_of_gt hh)]
    simp only [JSNum.toFixed1, JSNum.jsMin, JSNum.jsMax]
  · intro hh
    simp only [estimateDistance, jsDivQ, hh]
    rw [if_pos trivial, if_neg (ne_of_gt hnum), if_pos hnum]
    simp only [JSNum.toFixed1, JSNum.jsMin, JSNum.jsMax]
    norm_num

/-- C5 witness: a 100 pixel high person box in a 640 pixel frame gets a
finite estimate inside the clamp interval. -/
theorem estimateDistance_range_witness :
    ∃ q : ℚ, estimateDistance ⟨0, 0, 50, 100⟩ 640 "person" = JSNum.fin q ∧
      3/10 ≤ q ∧ q ≤ 20 :=
  (estimateDistance_range ⟨0, 0, 50, 100⟩ 640 "person" (by norm_num)).1
    (by norm_num)

/-- C6: for a frame whose center region yields statistics, detectWall
reports a wall exactly when the edge density is below 0.1 and the mean
brightness above 50; the reported distance is the brightness step chain
value, which is 0.5 above brightness 220, 6.0 at or below brightness 100,
and antitone in brightness throughout (brighter means closer or equal). -/
theorem detectWall_rule (f : Frame) (s : RegionStats)
    (hs : analyzeRegion f = some s) :
    ((detectWall f).isSome ↔ (s.edgeDensity < 1/10 ∧ s.avgBrightness > 50))
  ∧ (∀ wr, detectWall f = some wr →
       wr.distance = wallDistOfBrightness s.avgBrightness)
  ∧ (s.avgBrightness > 220 → wallDistOfBrightness s.avgBrightness = 1/2)
  ∧ (s.avgBrightness ≤ 100 → wallDistOfBrightness s.avgBrightness = 6)
  ∧ (∀ b1 b2 : ℚ, b1 ≤ b2 →
       wallDistOfBrightness b2 ≤ wallDistOfBrightness b1) := by
  refine ⟨?_, ?_, fun h => wallDist_high _ h, fun h => wallDist_low _ h,
    fun b1 b2 h => wallDist_antitone h⟩
  · simp only [detectWall, hs]
    by_cases h : s.edgeDensity < 1/10 ∧ s.avgBrightness > 50
    · rw [if_pos h]
      exact iff_of_true (by simp) h
    · rw [if_neg h]
      exact iff_of_false (by simp) h
  · intro wr hwr
    simp only [detectWall, hs] at hwr
    by_cases h : s.edgeDensity < 1/10 ∧ s.avgBrightness > 50
    · rw [if_pos h] at hwr
      injection hwr with hwr'
      rw [← hwr']
      exact roundTo1_wallDist _
    · rw [if_neg h] at hwr
      exact absurd hwr (by simp)

/-- C6 witness: the uniform brightness 150 frame with a half-integer
vertical loop bound (height 7) still yields statistics with edge density 0
and mean brightness 150, so a wall is reported. -/
theorem detectWall_rule_witness :
    (detectWall frame7).isSome ↔
      (stats6.edgeDensity < 1/10 ∧ stats6.avgBrightness > 50) :=
  (detectWall_rule frame7 stats6 (by decide)).1

/-- C7: a tick that starts with the speaking flag set returns immediately,
calling no classifier, publishing nothing and leaving the state untouched;
with the flag clear and the video and model ready, the tick reaches the
classifier call. -/
theorem speaking_skips_tick :
    (∀ (ready : Bool) (vw : ℚ) (cr : Option (List Detection))
        (fr : Option Frame) (now : ℤ) (st : AnnState),
        detectObjects true ready vw cr fr now st = ⟨st, false, none, none⟩)
  ∧ (∀ (vw : ℚ) (cr : Option (List Detection)) (fr : Option Frame)
        (now : ℤ) (st : AnnState),
        (detectObjects false true vw cr fr now st).classifierCalled = true) := by
  constructor
  · intro ready vw cr fr now st
    rfl
  · intro vw cr fr now st
    cases cr with
    | none => rfl
    | some preds =>
      simp only [detectObjects]
      cases hsel : selectSubject preds vw with
      | none =>
        cases hw : fr.bind detectWall with
        | none => simp
        | some wr =>
          by_cases hww : wr.hasWall <;> simp [hww]
      | some td =>
        obtain ⟨t, d⟩ := td
        cases t <;> simp

/-- C8: a tick whose classifier call throws or rejects leaves the published
detections, the last text and the last emission time untouched and
publishes nothing (only the separate error message is set), and the tick
loop simply continues: running any further schedule from the failed tick
equals running it without that tick. -/
theorem classifier_failure_local :
    (∀ (ready : Bool) (vw : ℚ) (fr : Option Frame) (now : ℤ) (st : AnnState),
        (detectObjects false ready vw none fr now st).state = st
      ∧ (detectObjects false ready vw none fr now st).published = none)
  ∧ (∀ (i : TickInput) (rest : List TickInput) (st : AnnState),
        i.classifierResult = none → runTicks (i :: rest) st = runTicks rest st) := by
  have hstate : ∀ (sp ready : Bool) (vw : ℚ) (fr : Option Frame) (now : ℤ)
      (st : AnnState),
      (detectObjects sp ready vw none fr now st).state = st ∧
      (detectObjects sp ready vw none fr now st).published = none := by
    intro sp ready vw fr now st
    cases sp <;> cases ready <;> exact ⟨rfl, rfl⟩
  constructor
  · intro ready vw fr now st
    exact hstate false ready vw fr now st
  · intro i rest st hcr
    show runTicks rest (tickState i st) = runTicks rest st
    have : tickState i st = st := by
      unfold tickState
      rw [hcr]
      exact (hstate i.isSpeaking i.ready i.videoWidth i.frame i.now st).1
    rw [this]

/-- C8 witness: a failing tick prepended to an empty schedule changes
nothing. -/
theorem classifier_failure_local_witness :
    runTicks [⟨false, true, 640, none, none, 0⟩] initialAnnState =
      runTicks [] initialAnnState :=
  classifier_failure_local.2 ⟨false, true, 640, none, none, 0⟩ [] initialAnnState rfl

/-- C9 counterexample: stopping detection from a state whose last emission
happened at time 5000 leaves lastAnnouncementTimeRef at 5000, so the state
after stopDetection is not the initial pipeline state. -/
theorem stop_reset_cex :
    stopDetection ⟨["Person center about 2.3 meters away"],
        "Person center about 2.3 meters away", 5000⟩ ≠ initialAnnState := by
  decide

/-- C9 amended: stopDetection empties the published detections and clears
the last text, but leaves the last emission time exactly as it was (only
lastDetectionRef is reset; lastAnnouncementTimeRef is not touched), so a
subsequent start resumes with the old throttle clock. -/
theorem stop_clears_text_only (st : AnnState) :
    (stopDetection st).detections = [] ∧ (stopDetection st).lastDetection = "" ∧
    (stopDetection st).lastAnnouncementTime = st.lastAnnouncementTime :=
  ⟨rfl, rfl, rfl⟩

/-- C10: every wall report carries a distance from the fourteen step-chain
band values, hence between 0.5 and 6.0 even though the wall path bypasses
the clamp of the geometry estimator, and a position among left, center,
right, with center whenever no third is strictly brightest. -/
theorem wall_output_invariants :
    (∀ (f : Frame) (wr : WallResult), detectWall f = some wr →
       wr.distance ∈ wallBands ∧ (1/2 ≤ wr.distance ∧ wr.distance ≤ 6) ∧
       (wr.position = "left" ∨ wr.position = "center" ∨ wr.position = "right"))
  ∧ (∀ lb cb rb : ℚ, ¬(lb > cb ∧ lb > rb) → ¬(rb > cb ∧ rb > lb) →
       ¬(cb > lb ∧ cb > rb) → wallPosition lb cb rb = "center") := by
  constructor
  · intro f wr hwr
    cases hs : analyzeRegion f with
    | none =>
      simp only [detectWall, hs] at hwr
      exact Option.noConfusion hwr
    | some s =>
      simp only [detectWall, hs] at hwr
      by_cases h : s.edgeDensity < 1/10 ∧ s.avgBrightness > 50
      · rw [if_pos h] at hwr
        injection hwr with hwr'
        rw [← hwr']
        refine ⟨?_, ?_, wallPosition_mem _ _ _⟩
        · show roundTo1 (wallDistOfBrightness s.avgBrightness) ∈ wallBands
          rw [roundTo1_wallDist]
          exact wallDist_mem _
        · show 1/2 ≤ roundTo1 (wallDistOfBrightness s.avgBrightness) ∧
            roundTo1 (wallDistOfBrightness s.avgBrightness) ≤ 6
          rw [roundTo1_wallDist]
          exact wallBands_bounds _ (wallDist_mem _)
      · rw [if_neg h] at hwr
        exact absurd hwr (by simp)
  · intro lb cb rb h1 h2 _
    unfold wallPosition
    rw [if_neg h1, if_neg h2]

/-- C10 witness: the wall report of the uniform frame6 satisfies the
invariants. -/
theorem wall_output_invariants_witness :
    (WallResult.mk true (7/2) "center").distance ∈ wallBands ∧
    (1/2 ≤ (WallResult.mk true (7/2) "center").distance ∧
      (WallResult.mk true (7/2) "center").distance ≤ 6) ∧
    ((WallResult.mk true (7/2) "center").position = "left" ∨
      (WallResult.mk true (7/2) "center").position = "center" ∨
      (WallResult.mk true (7/2) "center").position = "right") :=
  wall_output_invariants.1 frame6 ⟨true, 7/2, "center"⟩ (by decide)

end ARN

